import Mathlib

/-!
Shallow embedding of the `projeto_diagnostico` pipeline (TypeScript) and
verification of the frozen claims about it.

Conventions of the embedding:
* JavaScript error values are modelled by the structure `JsError`
  (fields `name`, `message`, `status`, `code`); a rejected promise /
  thrown error is an `Except.error`.
* Asynchronous external collaborators (Puppeteer scraping, BuiltWith,
  PageSpeed fetch, the Gemini SDK, `JSON.parse`) are modelled by oracle
  parameters giving the outcome of each call; the repository code that
  consumes those outcomes is translated statement by statement.
* JS numbers that the code only ever produces as integers are `Int`;
  raw metric values are exact rationals `ℚ` (the claims never depend on
  binary floating-point rounding).
* JS truthiness on optional strings (`!value`, `value || dflt`) is made
  explicit (`none` and `""` are falsy); a well-typed non-null object is
  never falsy.
-/

namespace Diagnostico

/-- A JavaScript error value as the repository code observes it:
`name` (for example "AbortError"), `message`, and the optional
`status` / `code` fields that the Gemini SDK attaches. -/
structure JsError where
  name : String
  message : String
  status : Option Int
  code : Option Int
deriving Repr, DecidableEq

/-- Plain `new Error(msg)`: name "Error", no status or code. -/
def mkError (m : String) : JsError :=
  { name := "Error", message := m, status := none, code := none }

/-- Does `hay` start with `need`? Helper for substring search. -/
def startsWithChars : List Char → List Char → Bool
  | _, [] => true
  | [], _ :: _ => false
  | h :: hs, n :: ns => h == n && startsWithChars hs ns

/-- Does `need` occur as a contiguous run inside the second list? -/
def hasSubChars (need : List Char) : List Char → Bool
  | [] => need.isEmpty
  | c :: rest => startsWithChars (c :: rest) need || hasSubChars need rest

/-- JS `s.includes(sub)`: substring containment. -/
def strIncludes (s sub : String) : Bool :=
  hasSubChars sub.data s.data

/-- JS falsiness of an optional string: `undefined`/`null` and `""` are
falsy, every other string is truthy. -/
def jsFalsyOptStr : Option String → Bool
  | none => true
  | some s => s == ""

/-- JS `v || dflt` on an optional string: the default is taken when the
value is absent or the empty string. -/
def jsOrStr (v : Option String) (dflt : String) : String :=
  match v with
  | some s => if s = "" then dflt else s
  | none => dflt

/-- JS `v || dflt` on an optional number (`0` is falsy). -/
def jsOrQ (v : Option ℚ) (dflt : ℚ) : ℚ :=
  match v with
  | some q => if q = 0 then dflt else q
  | none => dflt

/-- JS `Math.round`: round half towards positive infinity. -/
def jsRound (q : ℚ) : Int := ⌊q + 1 / 2⌋

/-! ## src/lib/retry-helper.ts -/

/-- `isRateLimitError` check of `retryWithBackoff`
(src/lib/retry-helper.ts lines 32-35): the message contains
"RESOURCE_EXHAUSTED", or `status` / `code` is 429. -/
def isRateLimitError (e : JsError) : Bool :=
  strIncludes e.message "RESOURCE_EXHAUSTED" || e.status == some 429 || e.code == some 429

/-- One `while (true)` loop of `retryWithBackoff`, with `attempt` prior
failures already counted.  `fn i` is the outcome of the (i+1)-th
invocation of the wrapped work.  Returns the final outcome together
with the list of delays (ms) slept before each retry, in order.
The code retries exactly when the error is a rate-limit signal and the
incremented attempt counter is still ≤ `maxRetries`; the delay before
the retry after failure number `attempt+1` is
`initialDelay * 2 ^ attempt` (the source's `initialDelay * 2^(attempt-1)`
with its post-increment counter). -/
def retryAux (fn : Nat → Except JsError α) (maxRetries initialDelay attempt : Nat) :
    Except JsError α × List Nat :=
  match fn attempt with
  | .ok v => (.ok v, [])
  | .error e =>
    if h : isRateLimitError e = true ∧ attempt + 1 ≤ maxRetries then
      let rest := retryAux fn maxRetries initialDelay (attempt + 1)
      (rest.1, initialDelay * 2 ^ attempt :: rest.2)
    else
      (.error e, [])
termination_by maxRetries - attempt
decreasing_by omega

/-- `retryWithBackoff` (src/lib/retry-helper.ts): run the work, retrying
with exponential backoff on rate-limit failures.  The source defaults
are `maxRetries = 3`, `initialDelay = 1000`. -/
def retryWithBackoff (fn : Nat → Except JsError α) (maxRetries initialDelay : Nat) :
    Except JsError α × List Nat :=
  retryAux fn maxRetries initialDelay 0

/-- Generalisation of the C4 statement to an arbitrary starting attempt
index `a`: if the next `k` invocations fail with rate-limit errors, the
one after succeeds, and `a + k ≤ maxRetries`, the loop returns the
success and sleeps `initialDelay * 2 ^ (a + i)` before retry `i`. -/
theorem retryAux_ok_after (fn : Nat → Except JsError α) (maxRetries initialDelay : Nat) (v : α) :
    ∀ (k a : Nat),
      (∀ i, i < k → ∃ e, fn (a + i) = .error e ∧ isRateLimitError e = true) →
      fn (a + k) = .ok v → a + k ≤ maxRetries →
      retryAux fn maxRetries initialDelay a =
        (.ok v, (List.range k).map (fun i => initialDelay * 2 ^ (a + i)))
  | 0, a, _hfail, hok, _hle => by
      rw [retryAux]
      rw [show a + 0 = a from rfl] at hok
      rw [hok]
      simp
  | k + 1, a, hfail, hok, hle => by
      obtain ⟨e, he, hrl⟩ := hfail 0 (Nat.succ_pos k)
      rw [show a + 0 = a from rfl] at he
      have hstep : a + 1 ≤ maxRetries := by omega
      have ih := retryAux_ok_after fn maxRetries initialDelay v k (a + 1)
        (fun i hi => by
          obtain ⟨e', he', hrl'⟩ := hfail (i + 1) (by omega)
          exact ⟨e', by rw [show a + 1 + i = a + (i + 1) by omega]; exact he', hrl'⟩)
        (by rw [show a + 1 + k = a + (k + 1) by omega]; exact hok)
        (by omega)
      rw [retryAux, he]
      dsimp only
      rw [dif_pos ⟨hrl, hstep⟩]
      rw [ih]
      simp only [List.range_succ_eq_map, List.map_cons, List.map_map]
      congr 1
      congr 1
      refine List.map_congr_left (fun i _ => ?_)
      simp only [Function.comp_apply]
      congr 2
      omega

/-- C4: for every work function that fails with a rate-limit signal
(429 status/code or a RESOURCE_EXHAUSTED message) exactly `k` times and
then succeeds, and every configuration with `maxRetries ≥ k` (the
spec's `maxAttempts`), `retryWithBackoff` returns the success result
after exactly `k` retries, sleeping
`initialDelay, 2·initialDelay, …, 2^(k-1)·initialDelay` before them. -/
theorem retryWithBackoff_rate_limit_retries (fn : Nat → Except JsError α)
    (k maxRetries initialDelay : Nat) (v : α)
    (hfail : ∀ i, i < k → ∃ e, fn i = .error e ∧ isRateLimitError e = true)
    (hok : fn k = .ok v) (hk : k ≤ maxRetries) :
    retryWithBackoff fn maxRetries initialDelay =
      (.ok v, (List.range k).map (fun i => initialDelay * 2 ^ i)) := by
  have h := retryAux_ok_after fn maxRetries initialDelay v k 0
    (fun i hi => by simpa using hfail i hi) (by simpa using hok) (by omega)
  simpa using h

/-- Concrete work for the C4 witness: two rate-limit failures (one by
message marker, one by status code) followed by success. -/
def rateLimitTwiceFn : Nat → Except JsError Nat
  | 0 => .error { name := "Error", message := "429 RESOURCE_EXHAUSTED: quota exceeded",
                  status := none, code := none }
  | 1 => .error { name := "Error", message := "rate limited", status := some 429, code := none }
  | _ => .ok 42

/-- Witness for C4: with `maxRetries = 3`, `initialDelay = 1000` and a
work that rate-limit-fails twice then succeeds, the executor returns 42
after sleeping 1000 ms and 2000 ms. -/
theorem retryWithBackoff_rate_limit_retries_witness :
    retryWithBackoff rateLimitTwiceFn 3 1000 = (.ok 42, [1000, 2000]) := by
  have h := retryWithBackoff_rate_limit_retries rateLimitTwiceFn 2 3 1000 42
    (fun i hi => by
      interval_cases i
      · exact ⟨_, rfl, by decide⟩
      · exact ⟨_, rfl, by decide⟩)
    rfl (by omega)
  simpa using h

/-- C5: a first failure that is not a rate-limit signal propagates
unchanged with no retry, for every `maxRetries` and `initialDelay`. -/
theorem retryWithBackoff_propagates_other_errors (fn : Nat → Except JsError α)
    (maxRetries initialDelay : Nat) (e : JsError)
    (h0 : fn 0 = .error e) (hnr : isRateLimitError e = false) :
    retryWithBackoff fn maxRetries initialDelay = (.error e, []) := by
  rw [retryWithBackoff, retryAux, h0]
  dsimp only
  rw [dif_neg]
  intro hcontra
  rw [hnr] at hcontra
  exact Bool.false_ne_true hcontra.1

/-- Concrete work for the C5 witness: an ordinary failure. -/
def plainFailureFn : Nat → Except JsError Nat
  | _ => .error (mkError "falha comum")

/-- Witness for C5: the ordinary failure comes back unchanged with an
empty delay list even though three retries were allowed. -/
theorem retryWithBackoff_propagates_other_errors_witness :
    retryWithBackoff plainFailureFn 3 1000 = (.error (mkError "falha comum"), []) :=
  retryWithBackoff_propagates_other_errors plainFailureFn 3 1000
    (mkError "falha comum") rfl (by decide)

/-! ## src/lib/performance-analyzer.ts -/

/-- Raw numeric metric values (`raw` field of `PerformanceMetrics`). -/
structure RawMetrics where
  fcp : ℚ
  lcp : ℚ
  tti : ℚ
  cls : ℚ
  speedIndex : ℚ
  tbt : ℚ
deriving Repr, DecidableEq

/-- Return type of `analyzePerformance` (interface `PerformanceMetrics`):
a 0-100 score, six display strings, the raw values, and an optional
error note. -/
structure PerformanceMetrics where
  score : Int
  fcp : String
  lcp : String
  tti : String
  cls : String
  speedIndex : String
  tbt : String
  raw : RawMetrics
  error : Option String
deriving Repr, DecidableEq

/-- `createErrorResult` (src/lib/performance-analyzer.ts lines 150-162):
the standardised payload returned when the analysis fails. -/
def createErrorResult (message : String) : PerformanceMetrics :=
  { score := 0, fcp := "-", lcp := "-", tti := "-", cls := "-", speedIndex := "-", tbt := "-",
    raw := { fcp := 0, lcp := 0, tti := 0, cls := 0, speedIndex := 0, tbt := 0 },
    error := some message }

/-- One audit of the PageSpeed response: `displayValue` and
`numericValue` are optional in the upstream JSON. -/
structure PageSpeedAudit where
  displayValue : Option String
  numericValue : Option ℚ
deriving Repr, DecidableEq

/-- The audits `analyzePerformance` reads, in source order:
first-contentful-paint, largest-contentful-paint, interactive,
cumulative-layout-shift, speed-index, total-blocking-time. -/
structure LighthouseAudits where
  firstContentfulPaint : PageSpeedAudit
  largestContentfulPaint : PageSpeedAudit
  interactive : PageSpeedAudit
  cumulativeLayoutShift : PageSpeedAudit
  speedIndex : PageSpeedAudit
  totalBlockingTime : PageSpeedAudit
deriving Repr, DecidableEq

/-- The part of a successful PageSpeed body the code consumes:
`lighthouseResult.categories.performance.score` (0..1, optional as JSON)
and the audits. -/
structure LighthouseResult where
  performanceScore : Option ℚ
  audits : LighthouseAudits
deriving Repr, DecidableEq

/-- Outcome of the `fetch` call to the PageSpeed API, as the code
distinguishes it: the fetch itself rejecting (an abort on the 60 s
timeout has `name = "AbortError"`), a non-ok HTTP response (with the
optional `errorData.error?.message` of its JSON body), a body carrying
an `error` field, or a usable body. -/
inductive FetchOutcome
  | reject (e : JsError)
  | httpError (statusCode : Int) (errMessage : Option String)
  | apiError (message : String)
  | success (data : LighthouseResult)
deriving Repr, DecidableEq

/-- Is this outcome an upstream-API fault or timeout (anything but a
usable body)? -/
def FetchOutcome.isFault : FetchOutcome → Bool
  | .success _ => false
  | _ => true

/-- `analyzePerformance` (src/lib/performance-analyzer.ts lines 68-145).
The whole body after the API-key guard is a try/catch whose catch
returns `createErrorResult`; the thrown errors inside the try are the
non-ok-response `Error` and the body-error `Error`, plus a rejection of
`fetch` itself. -/
def analyzePerformance (apiKey : Option String) (fetchOutcome : FetchOutcome) :
    Except JsError PerformanceMetrics :=
  if jsFalsyOptStr apiKey then
    .ok (createErrorResult "Chave de API PageSpeed não configurada.")
  else
    let tryResult : Except JsError PerformanceMetrics :=
      match fetchOutcome with
      | .reject e => .error e
      | .httpError statusCode errMessage =>
          .error (mkError (jsOrStr errMessage ("Erro na API: " ++ toString statusCode)))
      | .apiError m => .error (mkError m)
      | .success data =>
          .ok { score := jsRound ((jsOrQ data.performanceScore 0) * 100),
                fcp := jsOrStr data.audits.firstContentfulPaint.displayValue "N/A",
                lcp := jsOrStr data.audits.largestContentfulPaint.displayValue "N/A",
                tti := jsOrStr data.audits.interactive.displayValue "N/A",
                cls := jsOrStr data.audits.cumulativeLayoutShift.displayValue "0",
                speedIndex := jsOrStr data.audits.speedIndex.displayValue "N/A",
                tbt := jsOrStr data.audits.totalBlockingTime.displayValue "N/A",
                raw := { fcp := jsOrQ data.audits.firstContentfulPaint.numericValue 0,
                         lcp := jsOrQ data.audits.largestContentfulPaint.numericValue 0,
                         tti := jsOrQ data.audits.interactive.numericValue 0,
                         cls := jsOrQ data.audits.cumulativeLayoutShift.numericValue 0,
                         speedIndex := jsOrQ data.audits.speedIndex.numericValue 0,
                         tbt := jsOrQ data.audits.totalBlockingTime.numericValue 0 },
                error := none }
    match tryResult with
    | .ok m => .ok m
    | .error e =>
        let errorMessage :=
          if e.name = "AbortError" then "A análise demorou muito tempo (timeout de 60s)."
          else jsOrStr (some e.message) "Erro desconhecido na análise de performance."
        .ok (createErrorResult errorMessage)

/-- `jsOrStr` never yields the empty string when its default is
non-empty. -/
theorem jsOrStr_ne_empty (v : Option String) (d : String) (hd : d ≠ "") :
    jsOrStr v d ≠ "" := by
  cases v with
  | none => simpa [jsOrStr] using hd
  | some s =>
      by_cases hs : s = "" <;> simp [jsOrStr, hs, hd]

/-- Appending to the non-empty literal "Erro na API: " stays non-empty. -/
theorem erroNaApi_ne_empty (t : String) : ("Erro na API: " ++ t) ≠ "" := by
  intro h
  have hdata := congrArg String.data h
  rw [String.data_append] at hdata
  simp at hdata

/-- Counterexample to C8: with a configured API key and the fetch
aborted by its 60 s timeout (`name = "AbortError"`), `analyzePerformance`
does not reject — it resolves with the standardised error payload. -/
theorem analyzePerformance_timeout_resolves :
    analyzePerformance (some "pagespeed-key")
        (.reject { name := "AbortError", message := "The operation was aborted",
                   status := none, code := none })
      = .ok (createErrorResult "A análise demorou muito tempo (timeout de 60s).") := by
  rfl

/-- C8 amended: on every upstream-API fault or timeout (and for every
API-key state), `analyzePerformance` resolves successfully with the
standardised `createErrorResult` payload whose `error` field carries a
non-empty descriptive message — it never rejects. -/
theorem analyzePerformance_fault_resolves_with_error_note
    (apiKey : Option String) (o : FetchOutcome) (hfault : o.isFault = true) :
    ∃ msg, analyzePerformance apiKey o = .ok (createErrorResult msg) ∧ msg ≠ "" := by
  by_cases hk : jsFalsyOptStr apiKey = true
  · exact ⟨"Chave de API PageSpeed não configurada.",
      by simp [analyzePerformance, hk], by decide⟩
  · cases o with
    | reject e =>
        by_cases hab : e.name = "AbortError"
        · exact ⟨"A análise demorou muito tempo (timeout de 60s).",
            by simp [analyzePerformance, hk, hab], by decide⟩
        · refine ⟨jsOrStr (some e.message) "Erro desconhecido na análise de performance.",
            by simp [analyzePerformance, hk, hab], ?_⟩
          exact jsOrStr_ne_empty _ _ (by decide)
    | httpError statusCode errMessage =>
        refine ⟨jsOrStr (some (jsOrStr errMessage ("Erro na API: " ++ toString statusCode)))
            "Erro desconhecido na análise de performance.",
          by simp [analyzePerformance, hk, mkError], ?_⟩
        exact jsOrStr_ne_empty _ _ (by decide)
    | apiError m =>
        refine ⟨jsOrStr (some m) "Erro desconhecido na análise de performance.",
          by simp [analyzePerformance, hk, mkError], ?_⟩
        exact jsOrStr_ne_empty _ _ (by decide)
    | success data => simp [FetchOutcome.isFault] at hfault

/-- Witness for the amended C8: a concrete upstream 500 fault resolves
with a payload whose error note is "Erro na API: 500". -/
theorem analyzePerformance_fault_resolves_with_error_note_witness :
    ∃ msg, analyzePerformance (some "pagespeed-key") (.httpError 500 none)
        = .ok (createErrorResult msg) ∧ msg ≠ "" :=
  analyzePerformance_fault_resolves_with_error_note (some "pagespeed-key")
    (.httpError 500 none) (by decide)

/-! ## Data shapes of the other stage collaborators -/

/-- Heading text by level (`ScrapedData.headings`). -/
structure Headings where
  h1 : List String
  h2 : List String
  h3 : List String
  h4 : List String
  h5 : List String
  h6 : List String
deriving Repr, DecidableEq

/-- Link counts of the scraped page (`ScrapedData.links`). -/
structure LinksInfo where
  internal : List String
  external : List String
  total : Nat
deriving Repr, DecidableEq

/-- One image entry (`ScrapedData.images.details`). -/
structure ImageDetail where
  src : String
  alt : String
deriving Repr, DecidableEq

/-- Image alt-text coverage (`ScrapedData.images`). -/
structure ImagesInfo where
  total : Nat
  withoutAlt : Nat
  details : List ImageDetail
deriving Repr, DecidableEq

/-- Detected marketing-script signatures (`ScrapedData.scripts`). -/
structure ScriptsInfo where
  analytics : Bool
  gtm : Bool
  pixel : Bool
  detected : List String
deriving Repr, DecidableEq

/-- Visible text and raw HTML size (`ScrapedData.content`). -/
structure ContentInfo where
  visibleText : String
  htmlLength : Nat
deriving Repr, DecidableEq

/-- `ScrapedData` interface of src/unnamed scraper module
(the content-collection payload). -/
structure ScrapedData where
  url : String
  title : String
  metaDescription : String
  metaKeywords : String
  ogTags : List (String × String)
  headings : Headings
  links : LinksInfo
  images : ImagesInfo
  scripts : ScriptsInfo
  content : ContentInfo
  screenshot : String
deriving Repr, DecidableEq

/-- `DetectedTechnology` (src/lib/technology-detector.ts). -/
structure DetectedTechnology where
  name : String
  category : String
  firstDetected : String
  lastDetected : String
  categories : List String
deriving Repr, DecidableEq

/-- `TechnologyAnalysis` (src/lib/technology-detector.ts); the
grouped-by-category record is an association list here. -/
structure TechnologyAnalysis where
  technologies : List DetectedTechnology
  groupedByCategory : List (String × List DetectedTechnology)
  totalTechnologies : Nat
  lastUpdated : String
  error : Option String
deriving Repr, DecidableEq

/-! ## src/lib/cro-analyzer.ts -/

/-- One improvement opportunity of a `CROAnalysis`; `impacto` stays a
string ("alto" / "médio" / "baixo") as in the duck-typed JSON. -/
structure Oportunidade where
  titulo : String
  descricao : String
  impacto : String
  prioridade : Int
deriving Repr, DecidableEq

/-- The overall CRO score (`CROAnalysis.scoreCRO`). -/
structure ScoreCRO where
  nota : Int
  justificativa : String
deriving Repr, DecidableEq

/-- `CROAnalysis` interface (src/lib/cro-analyzer.ts lines 7-21). -/
structure CROAnalysis where
  pontoFortes : List String
  oportunidadesMelhoria : List Oportunidade
  insightsEstrategicos : List String
  scoreCRO : ScoreCRO
  error : Option String
deriving Repr, DecidableEq

/-- Digit value of a character, if it is a decimal digit. -/
def digitVal (c : Char) : Option Nat :=
  if c.isDigit then some (c.toNat - 48) else none

/-- Take the leading run of decimal digits. -/
def takeDigits : List Char → List Nat × List Char
  | [] => ([], [])
  | c :: cs =>
    match digitVal c with
    | some d => let r := takeDigits cs; (d :: r.1, r.2)
    | none => ([], c :: cs)

/-- Value of a digit run read left to right. -/
def digitsToNat (ds : List Nat) : Nat := ds.foldl (fun acc d => 10 * acc + d) 0

/-- JS `parseFloat` on the decimal numerals the code feeds it (optional
sign, integer digits, optional fraction; `none` is NaN).  The binary
floating-point value is modelled by the exact rational. -/
def parseFloatQ (s : String) : Option ℚ :=
  let cs := s.data.dropWhile (fun c => c = ' ')
  let signed : Bool × List Char :=
    match cs with
    | '-' :: rest => (true, rest)
    | '+' :: rest => (false, rest)
    | _ => (false, cs)
  let ipart := takeDigits signed.2
  let fpart : List Nat :=
    match ipart.2 with
    | '.' :: rest => (takeDigits rest).1
    | _ => []
  if ipart.1.isEmpty ∧ fpart.isEmpty then none
  else
    let mag : ℚ := (digitsToNat ipart.1 : ℚ) + (digitsToNat fpart : ℚ) / (10 ^ fpart.length)
    some (if signed.1 then -mag else mag)

/-- The `parseFloat(performance.cls) < 0.1` test of
`getFallbackAnalysis` (a NaN comparison is false). -/
def clsBelowTenth (cls : String) : Bool :=
  match parseFloatQ cls with
  | some q => decide (q < 1 / 10)
  | none => false

/-- `getFallbackAnalysis` (src/lib/cro-analyzer.ts lines 157-188): the
deterministic rule-based insight payload built from the performance
payload alone, with the triggering error message attached. -/
def getFallbackAnalysis (performance : PerformanceMetrics) (errorMessage : String) : CROAnalysis :=
  let pontosFortes : List String :=
    (if performance.score ≥ 90 then ["Excelente pontuação de performance geral."] else []) ++
    (if clsBelowTenth performance.cls then ["Boa estabilidade visual (CLS)."] else [])
  let oportunidades : List Oportunidade :=
    if performance.score < 50 then
      [{ titulo := "Melhorar Performance Geral",
         descricao := "O site está muito lento, o que impacta severamente a conversão móvel.",
         impacto := "alto", prioridade := 5 }]
    else []
  { pontoFortes := if pontosFortes.length > 0 then pontosFortes else ["Site acessível"],
    oportunidadesMelhoria :=
      if oportunidades.length > 0 then oportunidades else
        [{ titulo := "Revisão Manual Necessária",
           descricao := "Não foi possível gerar recomendações automáticas detalhadas no momento.",
           impacto := "médio", prioridade := 3 }],
    insightsEstrategicos := ["Monitore seus Core Web Vitals mensalmente."],
    scoreCRO := { nota := performance.score,
                  justificativa := "Nota baseada puramente em métricas de performance devido a erro na análise detalhada." },
    error := some errorMessage }

/-- Outcome of the Gemini `generateContent` call as `analyzeCRO`
observes it: the promise rejects, or it resolves and `response.text()`
yields `t` (the empty string models a falsy text). -/
inductive AiOutcome
  | reject (e : JsError)
  | text (t : String)
deriving Repr, DecidableEq

/-- A non-null well-typed JS object is never falsy; this makes the
source's `!scrapedData || !performanceData` guard explicit. -/
def jsFalsyObj {α : Type} (_ : α) : Bool := false

/-- `analyzeCRO` (src/lib/cro-analyzer.ts lines 31-152).  The prompt
string does not influence control flow and the AI call plus
`JSON.parse` are external, so both are oracles (`ai`, `parseJson`).
The single try/catch converts every failure into
`getFallbackAnalysis`, distinguishing the RESOURCE_EXHAUSTED message. -/
def analyzeCRO (scrapedData : ScrapedData) (technologiesData : List DetectedTechnology)
    (performanceData : PerformanceMetrics) (ai : AiOutcome)
    (parseJson : String → Option CROAnalysis) : Except JsError CROAnalysis :=
  let _ := technologiesData
  let tryResult : Except JsError CROAnalysis :=
    if jsFalsyObj scrapedData || jsFalsyObj performanceData then
      .error (mkError "Dados insuficientes para análise de CRO.")
    else
      match ai with
      | .reject e => .error e
      | .text t =>
          if t = "" then .error (mkError "Resposta vazia da IA.")
          else
            match parseJson t with
            | some analysis => .ok analysis
            | none => .error (mkError "Falha ao processar resposta da IA.")
  match tryResult with
  | .ok a => .ok a
  | .error e =>
      if strIncludes e.message "RESOURCE_EXHAUSTED" then
        .ok (getFallbackAnalysis performanceData "Limite de requisições da IA excedido.")
      else
        .ok (getFallbackAnalysis performanceData ("Erro na análise inteligente: " ++ e.message))

/-! ## src/app/api/analyze/route.ts (the Launch Endpoint) -/

/-- The validated launch form (src form-schema module): name, email,
empresa, target URL, optional phone. -/
structure FormData where
  name : String
  email : String
  empresa : String
  websiteUrl : String
  phone : Option String
deriving Repr, DecidableEq

/-- Outcome of `await request.json()` plus `formSchema.safeParse` (the
JSON body and the zod validator are external): the body read rejects
(caught by the route's outer catch), validation fails with a flattened
field-error list, or a validated `FormData` comes back. -/
inductive ParseOutcome
  | jsonError (e : JsError)
  | invalid (fieldErrors : List (String × String))
  | valid (data : FormData)
deriving Repr, DecidableEq

/-- Outcomes of the four awaited stage calls as the route observes
them.  `scrape`, `tech` and `perf` are single awaited results; `cro` is
the imported `analyzeCRO` function (instantiated with the real one in
the theorems that need it). -/
structure RouteOracles where
  scrape : Except JsError ScrapedData
  tech : Except JsError TechnologyAnalysis
  perf : Except JsError PerformanceMetrics
  cro : ScrapedData → List DetectedTechnology → PerformanceMetrics → Except JsError CROAnalysis

/-- The JSON response of the POST route.  `duration` (wall-clock
seconds) is real time and is not modelled; `errors` is `none` exactly
when the route's error object stayed empty (the source's
`Object.keys(errors).length > 0 ? errors : undefined`). -/
structure AnalyzeResponse where
  httpStatus : Nat
  status : String
  message : Option String
  analysisId : Option String
  scrapedData : Option ScrapedData
  screenshot : Option String
  technologies : Option TechnologyAnalysis
  performance : Option PerformanceMetrics
  cro : Option CROAnalysis
  errors : Option (List (String × String))

/-- The fixed message recorded under `errors.cro` when the CRO stage is
skipped (route.ts line 94). -/
def croSkipMessage : String :=
  "Análise de CRO pulada devido a falhas nas etapas anteriores (Scraping ou Performance)."

/-- The per-stage error entries accumulated by the three independent
try/catch blocks of the route, in execution order
scraping → technologies → performance. -/
def collectedErrors (o : RouteOracles) : List (String × String) :=
  (match o.scrape with | .error e => [("scraping", e.message)] | .ok _ => []) ++
  (match o.tech with | .error e => [("technologies", e.message)] | .ok _ => []) ++
  (match o.perf with | .error e => [("performance", e.message)] | .ok _ => [])

/-- Step (d) of the route (lines 81-95): run `analyzeCRO` only when
scraping and performance both produced data, passing an empty
technology list when detection failed; otherwise record the skip
message.  Returns the `croAnalysis` value and the final error list. -/
def croStage (o : RouteOracles) : Option CROAnalysis × List (String × String) :=
  match o.scrape.toOption, o.perf.toOption with
  | some s, some p =>
      let techList := match o.tech.toOption with
        | some t => t.technologies
        | none => []
      match o.cro s techList p with
      | .ok a => (some a, collectedErrors o)
      | .error e => (none, collectedErrors o ++ [("cro", e.message)])
  | _, _ => (none, collectedErrors o ++ [("cro", croSkipMessage)])

/-- `POST` (src/app/api/analyze/route.ts lines 12-129).  All four stage
calls are awaited before any response is produced; on the non-throwing
path the response always carries `status: "completed"` with the
partial results and the accumulated error map.  The outer catch (HTTP
500) is reachable only from the body read, every stage failure being
caught locally. -/
def POST (analysisId : String) (parsed : ParseOutcome) (o : RouteOracles) : AnalyzeResponse :=
  match parsed with
  | .jsonError _ =>
      { httpStatus := 500, status := "error",
        message := some "Erro interno no servidor ao processar análise.",
        analysisId := none, scrapedData := none, screenshot := none, technologies := none,
        performance := none, cro := none, errors := none }
  | .invalid _ =>
      { httpStatus := 400, status := "error", message := some "Dados inválidos",
        analysisId := none, scrapedData := none, screenshot := none, technologies := none,
        performance := none, cro := none, errors := none }
  | .valid _ =>
      { httpStatus := 200, status := "completed", message := none,
        analysisId := some analysisId,
        scrapedData := o.scrape.toOption.map
          (fun s => { s with screenshot := "... (base64 omitido no log)" }),
        screenshot := o.scrape.toOption.map ScrapedData.screenshot,
        technologies := o.tech.toOption,
        performance := o.perf.toOption,
        cro := (croStage o).1,
        errors := if (croStage o).2.isEmpty then none else some (croStage o).2 }

/-! ### Concrete values for the closed counterexamples and witnesses -/

/-- A concrete scraped payload. -/
def exScraped : ScrapedData :=
  { url := "https://shop.example.com", title := "Loja Exemplo",
    metaDescription := "Loja de exemplo", metaKeywords := "loja, exemplo",
    ogTags := [("og:title", "Loja Exemplo")],
    headings := { h1 := ["Bem-vindo"], h2 := ["Ofertas"], h3 := [], h4 := [], h5 := [], h6 := [] },
    links := { internal := ["/produtos"], external := ["https://blog.example.com"], total := 2 },
    images := { total := 3, withoutAlt := 1, details := [{ src := "/logo.png", alt := "logo" }] },
    scripts := { analytics := true, gtm := false, pixel := false, detected := ["Google Analytics"] },
    content := { visibleText := "Bem-vindo à loja", htmlLength := 20000 },
    screenshot := "iVBORw0KGgo=" }

/-- A concrete performance payload with score 80. -/
def exPerf : PerformanceMetrics :=
  { score := 80, fcp := "1.2 s", lcp := "2.0 s", tti := "3.1 s", cls := "0.05",
    speedIndex := "2.2 s", tbt := "150 ms",
    raw := { fcp := 1200, lcp := 2000, tti := 3100, cls := 1 / 20, speedIndex := 2200, tbt := 150 },
    error := none }

/-- A concrete (empty) technology payload. -/
def exTech : TechnologyAnalysis :=
  { technologies := [], groupedByCategory := [], totalTechnologies := 0,
    lastUpdated := "01/01/2025", error := none }

/-- A concrete AI-produced insight payload. -/
def exCro : CROAnalysis :=
  { pontoFortes := ["Bom título"], oportunidadesMelhoria := [],
    insightsEstrategicos := ["Invista em SEO"],
    scoreCRO := { nota := 70, justificativa := "Análise detalhada" }, error := none }

/-- A concrete validated launch form. -/
def exForm : FormData :=
  { name := "Maria Silva", email := "maria@example.com", empresa := "Loja Exemplo",
    websiteUrl := "https://shop.example.com", phone := none }

/-- Oracles of a run where every stage succeeds. -/
def exOraclesOk : RouteOracles :=
  { scrape := .ok exScraped, tech := .ok exTech, perf := .ok exPerf,
    cro := fun _ _ _ => .ok exCro }

/-- A scraping failure (navigation timeout). -/
def eScrapeFail : JsError := mkError "Navigation timeout of 30000 ms exceeded"

/-- Oracles of a run whose scraping stage failed, everything else
succeeding. -/
def exOraclesScrapeFail : RouteOracles :=
  { scrape := .error eScrapeFail, tech := .ok exTech, perf := .ok exPerf,
    cro := fun _ _ _ => .ok exCro }

/-- Counterexample to C1: on a valid launch request the route does not
answer `status: "processing"` — it awaits the whole pipeline and
answers `status: "completed"`. -/
theorem post_returns_completed_not_processing :
    (POST "a1" (.valid exForm) exOraclesOk).status = "completed" ∧
    (POST "a1" (.valid exForm) exOraclesOk).status ≠ "processing" :=
  ⟨rfl, by decide⟩

/-- C1 amended: for every valid launch request the route runs the four
stages synchronously (their outcomes are all inputs of the one
response) and returns HTTP 200 with `status: "completed"` and the
generated identifier; no record is created and nothing is scheduled to
run after the response. -/
theorem post_valid_synchronous_completed (analysisId : String) (data : FormData)
    (o : RouteOracles) :
    (POST analysisId (.valid data) o).httpStatus = 200 ∧
    (POST analysisId (.valid data) o).status = "completed" ∧
    (POST analysisId (.valid data) o).analysisId = some analysisId :=
  ⟨rfl, rfl, rfl⟩

/-- Counterexample to C2: a run whose scraping failed still finishes
with `status: "completed"` although the content payload is absent. -/
theorem post_completed_without_content :
    (POST "a2" (.valid exForm) exOraclesScrapeFail).status = "completed" ∧
    (POST "a2" (.valid exForm) exOraclesScrapeFail).scrapedData = none ∧
    (POST "a2" (.valid exForm) exOraclesScrapeFail).performance = some exPerf :=
  ⟨rfl, rfl, rfl⟩

/-- C2 amended: every valid run finishes with `status: "completed"`,
and the content and performance payloads of that completed response are
present exactly when their stages succeeded — completion does not imply
their presence. -/
theorem post_completed_payload_presence (analysisId : String) (data : FormData)
    (o : RouteOracles) :
    (POST analysisId (.valid data) o).status = "completed" ∧
    (POST analysisId (.valid data) o).scrapedData.isSome = o.scrape.toOption.isSome ∧
    (POST analysisId (.valid data) o).performance = o.perf.toOption := by
  refine ⟨rfl, ?_, rfl⟩
  cases h : o.scrape <;> simp [POST, h, Except.toOption]

/-- Oracles for the C3 counterexample: scraping fails, so the CRO stage
is skipped. -/
def exOraclesSkip : RouteOracles :=
  { scrape := .error eScrapeFail, tech := .ok exTech, perf := .ok exPerf,
    cro := fun _ _ _ => .ok exCro }

/-- Counterexample to C3: when the CRO stage is skipped for a missing
prerequisite, the run does not terminate with `status = "error"` — it
answers `status: "completed"`, recording the skip under `errors.cro`. -/
theorem post_skip_still_completed :
    (POST "a3" (.valid exForm) exOraclesSkip).status = "completed" ∧
    (POST "a3" (.valid exForm) exOraclesSkip).status ≠ "error" ∧
    (POST "a3" (.valid exForm) exOraclesSkip).cro = none ∧
    (POST "a3" (.valid exForm) exOraclesSkip).errors =
      some [("scraping", "Navigation timeout of 30000 ms exceeded"), ("cro", croSkipMessage)] :=
  ⟨rfl, by decide, rfl, rfl⟩

/-- C3 amended: whenever the CRO stage is skipped because scraping or
performance produced no payload, the run still terminates with
`status: "completed"`, the insights payload is absent, and an error
entry under the key "cro" names the skip caused by the previous
stages. -/
theorem post_skip_completes_with_cro_error (analysisId : String) (data : FormData)
    (o : RouteOracles) (h : o.scrape.toOption = none ∨ o.perf.toOption = none) :
    (POST analysisId (.valid data) o).status = "completed" ∧
    (POST analysisId (.valid data) o).cro = none ∧
    ("cro", croSkipMessage) ∈ ((POST analysisId (.valid data) o).errors.getD []) := by
  have hcs : croStage o = (none, collectedErrors o ++ [("cro", croSkipMessage)]) := by
    rcases h with h | h
    · unfold croStage
      rw [h]
    · unfold croStage
      rw [h]
      cases o.scrape.toOption <;> rfl
  refine ⟨rfl, ?_, ?_⟩
  · simp [POST, hcs]
  · have hne : (collectedErrors o ++ [("cro", croSkipMessage)]).isEmpty = false := by
      simp [List.isEmpty_iff]
    simp [POST, hcs, hne]

/-- Witness for the amended C3 at the concrete skip run. -/
theorem post_skip_completes_with_cro_error_witness :
    (POST "a3w" (.valid exForm) exOraclesSkip).status = "completed" ∧
    (POST "a3w" (.valid exForm) exOraclesSkip).cro = none ∧
    ("cro", croSkipMessage) ∈ ((POST "a3w" (.valid exForm) exOraclesSkip).errors.getD []) :=
  post_skip_completes_with_cro_error "a3w" exForm exOraclesSkip (Or.inl rfl)

/-- When the AI call rejects with a RESOURCE_EXHAUSTED message,
`analyzeCRO` returns the fallback payload with the fixed rate-limit
note. -/
theorem analyzeCRO_reject_rate_limit (s : ScrapedData) (ts : List DetectedTechnology)
    (p : PerformanceMetrics) (e : JsError) (parseJson : String → Option CROAnalysis)
    (hrl : strIncludes e.message "RESOURCE_EXHAUSTED" = true) :
    analyzeCRO s ts p (.reject e) parseJson =
      .ok (getFallbackAnalysis p "Limite de requisições da IA excedido.") := by
  simp [analyzeCRO, jsFalsyObj, hrl]

/-- `analyzeCRO` always resolves: every internal failure is converted
into the fallback payload by the catch block. -/
theorem analyzeCRO_never_error (s : ScrapedData) (ts : List DetectedTechnology)
    (p : PerformanceMetrics) (ai : AiOutcome) (parseJson : String → Option CROAnalysis) :
    ∃ a, analyzeCRO s ts p ai parseJson = .ok a := by
  unfold analyzeCRO
  simp only [jsFalsyObj, Bool.or_self, Bool.false_eq_true, if_false]
  cases ai with
  | reject e =>
      dsimp only
      split <;> exact ⟨_, rfl⟩
  | text t =>
      dsimp only
      by_cases ht : t = ""
      · rw [if_pos ht]
        dsimp only
        split <;> exact ⟨_, rfl⟩
      · rw [if_neg ht]
        cases hp : parseJson t with
        | some a => exact ⟨a, rfl⟩
        | none =>
            dsimp only
            split <;> exact ⟨_, rfl⟩

/-- C6: in a run whose content and performance stages succeeded and
whose Insight Generator rejects with a rate-limit failure, the route
still answers `status: "completed"` carrying the fallback insights
payload, whose overall score equals the performance score and whose
`error` field carries the rate-limit note. -/
theorem post_cro_rate_limit_falls_back (analysisId : String) (data : FormData)
    (o : RouteOracles) (s : ScrapedData) (p : PerformanceMetrics) (e : JsError)
    (parseJson : String → Option CROAnalysis)
    (hs : o.scrape = .ok s) (hp : o.perf = .ok p)
    (hcro : o.cro = fun s' ts' p' => analyzeCRO s' ts' p' (.reject e) parseJson)
    (hrl : strIncludes e.message "RESOURCE_EXHAUSTED" = true) :
    (POST analysisId (.valid data) o).status = "completed" ∧
    (POST analysisId (.valid data) o).cro =
      some (getFallbackAnalysis p "Limite de requisições da IA excedido.") ∧
    (getFallbackAnalysis p "Limite de requisições da IA excedido.").scoreCRO.nota = p.score ∧
    (getFallbackAnalysis p "Limite de requisições da IA excedido.").error =
      some "Limite de requisições da IA excedido." := by
  refine ⟨rfl, ?_, rfl, rfl⟩
  show (croStage o).1 = _
  unfold croStage
  rw [hs, hp, hcro]
  simp only [Except.toOption]
  rw [analyzeCRO_reject_rate_limit s _ p e parseJson hrl]

/-- The AI rejection used by the C6 witness. -/
def eRateLimit : JsError :=
  { name := "Error", message := "429 RESOURCE_EXHAUSTED: quota do plano gratuito",
    status := some 429, code := none }

/-- A JSON-parse oracle (never consulted on a rejected call). -/
def parseNone : String → Option CROAnalysis := fun _ => none

/-- Oracles of a run where scraping and performance succeed and the CRO
stage is the real `analyzeCRO` hitting a rate-limited AI. -/
def exOraclesRateLtd : RouteOracles :=
  { scrape := .ok exScraped, tech := .ok exTech, perf := .ok exPerf,
    cro := fun s' ts' p' => analyzeCRO s' ts' p' (.reject eRateLimit) parseNone }

/-- Witness for C6 at the concrete rate-limited run: score 80 flows
into the fallback nota. -/
theorem post_cro_rate_limit_falls_back_witness :
    (POST "a6" (.valid exForm) exOraclesRateLtd).status = "completed" ∧
    (POST "a6" (.valid exForm) exOraclesRateLtd).cro =
      some (getFallbackAnalysis exPerf "Limite de requisições da IA excedido.") ∧
    (getFallbackAnalysis exPerf "Limite de requisições da IA excedido.").scoreCRO.nota =
      exPerf.score ∧
    (getFallbackAnalysis exPerf "Limite de requisições da IA excedido.").error =
      some "Limite de requisições da IA excedido." :=
  post_cro_rate_limit_falls_back "a6" exForm exOraclesRateLtd exScraped exPerf eRateLimit
    parseNone rfl rfl rfl (by decide)

/-- The oracle record used in the C9 statement: content and performance
succeeded, technology detection arbitrary, and the CRO stage is the
real `analyzeCRO` under an arbitrary AI behaviour. -/
def oraclesWithRealCro (s : ScrapedData) (p : PerformanceMetrics)
    (tc : Except JsError TechnologyAnalysis) (ai : AiOutcome)
    (parseJson : String → Option CROAnalysis) : RouteOracles :=
  { scrape := .ok s, tech := tc, perf := .ok p,
    cro := fun s' ts' p' => analyzeCRO s' ts' p' ai parseJson }

/-- C9: `analyzeCRO` never rejects — every internal failure becomes the
fallback payload — and therefore, in every run whose content and
performance stages succeeded, the route's catch branch for the insight
stage records nothing and the response carries an insights payload. -/
theorem analyzeCRO_total_and_route_insights (s : ScrapedData) (ts : List DetectedTechnology)
    (p : PerformanceMetrics) (ai : AiOutcome) (parseJson : String → Option CROAnalysis) :
    (∃ a, analyzeCRO s ts p ai parseJson = .ok a) ∧
    ∀ (analysisId : String) (data : FormData) (tc : Except JsError TechnologyAnalysis),
      (∃ a, (POST analysisId (.valid data) (oraclesWithRealCro s p tc ai parseJson)).cro = some a) ∧
      ∀ m, ("cro", m) ∉
        ((POST analysisId (.valid data) (oraclesWithRealCro s p tc ai parseJson)).errors.getD []) := by
  refine ⟨analyzeCRO_never_error s ts p ai parseJson, ?_⟩
  intro analysisId data tc
  cases tc with
  | ok t =>
      obtain ⟨a, ha⟩ := analyzeCRO_never_error s t.technologies p ai parseJson
      have hcs : croStage (oraclesWithRealCro s p (.ok t) ai parseJson) = (some a, []) := by
        simp [croStage, oraclesWithRealCro, collectedErrors, Except.toOption, ha]
      refine ⟨⟨a, ?_⟩, ?_⟩
      · show (croStage _).1 = _
        rw [hcs]
      · intro m hm
        have herr : (POST analysisId (.valid data)
            (oraclesWithRealCro s p (.ok t) ai parseJson)).errors = none := by
          show (if (croStage _).2.isEmpty then _ else _) = _
          rw [hcs]
          rfl
        rw [herr] at hm
        simp at hm
  | error e =>
      obtain ⟨a, ha⟩ := analyzeCRO_never_error s [] p ai parseJson
      have hcs : croStage (oraclesWithRealCro s p (.error e) ai parseJson) =
          (some a, [("technologies", e.message)]) := by
        simp [croStage, oraclesWithRealCro, collectedErrors, Except.toOption, ha]
      refine ⟨⟨a, ?_⟩, ?_⟩
      · show (croStage _).1 = _
        rw [hcs]
      · intro m hm
        have herr : (POST analysisId (.valid data)
            (oraclesWithRealCro s p (.error e) ai parseJson)).errors =
            some [("technologies", e.message)] := by
          show (if (croStage _).2.isEmpty then _ else _) = _
          rw [hcs]
          rfl
        rw [herr] at hm
        simp at hm

/-! ## The status/progress GET route (src/unnamed part_002, the Progress Reporter) -/

/-- The persisted `Analysis` row (prisma migration): the four stage
payloads are independently nullable serialized TEXT blobs. -/
structure AnalysisRow where
  id : String
  createdAt : Int
  updatedAt : Int
  completedAt : Option Int
  name : String
  email : String
  empresa : String
  websiteUrl : String
  phone : Option String
  status : String
  errorMessage : Option String
  scrapedData : Option String
  technologiesData : Option String
  performanceData : Option String
  croInsights : Option String
deriving Repr, DecidableEq

/-- JS truthiness of a nullable TEXT column (`if (analysis.scrapedData)`):
SQL NULL and the empty string are falsy. -/
def jsTruthyOptStr : Option String → Bool
  | none => false
  | some s => !(s == "")

/-- The derived progress view of the GET route. -/
structure ProgressView where
  completedSteps : Nat
  totalSteps : Nat
  percentage : Int
  currentStep : String
deriving Repr, DecidableEq

/-- Progress computation of the GET route (part_002 lines 25-57): four
independent `if` blocks increment `completedSteps` and update the
message, then an error status overrides the message, and
`percentage = Math.round((completedSteps / totalSteps) * 100)`. -/
def computeProgress (analysis : AnalysisRow) : ProgressView :=
  let totalSteps : Nat := 4
  let s1 : Nat × String :=
    if jsTruthyOptStr analysis.scrapedData then (1, "Detectando tecnologias...")
    else (0, "Coletando dados do site...")
  let s2 : Nat × String :=
    if jsTruthyOptStr analysis.technologiesData then (s1.1 + 1, "Analisando performance...")
    else s1
  let s3 : Nat × String :=
    if jsTruthyOptStr analysis.performanceData then (s2.1 + 1, "Gerando insights com IA...")
    else s2
  let s4 : Nat × String :=
    if jsTruthyOptStr analysis.croInsights then (s3.1 + 1, "Análise concluída!")
    else s3
  let currentStepMessage := if analysis.status = "error" then "Erro no processamento." else s4.2
  { completedSteps := s4.1, totalSteps := totalSteps,
    percentage := jsRound (((s4.1 : ℚ) / (totalSteps : ℚ)) * 100),
    currentStep := currentStepMessage }

/-- A row whose first slot is absent while slots 2 and 3 are populated. -/
def exRowLaterSlots : AnalysisRow :=
  { id := "r1", createdAt := 0, updatedAt := 0, completedAt := none,
    name := "Maria Silva", email := "maria@example.com", empresa := "Loja Exemplo",
    websiteUrl := "https://shop.example.com", phone := none, status := "processing",
    errorMessage := none, scrapedData := none,
    technologiesData := some "[]", performanceData := some "perf-json",
    croInsights := none }

/-- The same row with slots 2 and 3 also absent. -/
def exRowEmpty : AnalysisRow :=
  { id := "r2", createdAt := 0, updatedAt := 0, completedAt := none,
    name := "Maria Silva", email := "maria@example.com", empresa := "Loja Exemplo",
    websiteUrl := "https://shop.example.com", phone := none, status := "processing",
    errorMessage := none, scrapedData := none,
    technologiesData := none, performanceData := none,
    croInsights := none }

/-- Counterexample to C7: populated later slots that follow an absent
slot 1 do increase `completedSteps` (2 instead of the claimed 0) — the
scan does not stop at the first absent slot. -/
theorem computeProgress_does_not_stop_at_gap :
    (computeProgress exRowLaterSlots).completedSteps = 2 ∧
    (computeProgress exRowEmpty).completedSteps = 0 :=
  ⟨rfl, rfl⟩

/-- C7 amended: `completedSteps` counts every populated stage slot
independently — one per populated slot in order 1→2→3→4 with no
stopping at an absent slot — and
`percentage = round(100 × completedSteps / 4)`. -/
theorem computeProgress_counts_each_slot (a : AnalysisRow) :
    (computeProgress a).completedSteps =
      (if jsTruthyOptStr a.scrapedData then 1 else 0) +
      (if jsTruthyOptStr a.technologiesData then 1 else 0) +
      (if jsTruthyOptStr a.performanceData then 1 else 0) +
      (if jsTruthyOptStr a.croInsights then 1 else 0) ∧
    (computeProgress a).percentage =
      jsRound (100 * ((computeProgress a).completedSteps : ℚ) / 4) := by
  cases h1 : jsTruthyOptStr a.scrapedData <;>
    cases h2 : jsTruthyOptStr a.technologiesData <;>
      cases h3 : jsTruthyOptStr a.performanceData <;>
        cases h4 : jsTruthyOptStr a.croInsights <;>
          refine ⟨by simp [computeProgress, h1, h2, h3, h4], ?_⟩ <;>
            simp [computeProgress, h1, h2, h3, h4, jsRound] <;> norm_num

/-! ## The environment validator and the Gemini client module
(src env module appended to cro-analyzer.ts, and src/unnamed part_000) -/

/-- `requiredEnvs` of the env module: the keys the validator checks. -/
def requiredEnvs : List String := ["GEMINI_API_KEY", "BUILTWITH_API_KEY", "PAGESPEED_API_KEY"]

/-- The validator loop: collect missing keys and the config entries, in
key order.  `procEnv` is `process.env`; `!value` treats absent and
empty values as missing. -/
def collectEnvs (procEnv : String → Option String) : List String → List String × List (String × String)
  | [] => ([], [])
  | k :: ks =>
      let rest := collectEnvs procEnv ks
      match procEnv k with
      | none => (k :: rest.1, rest.2)
      | some v => if v = "" then (k :: rest.1, rest.2) else (rest.1, (k, v) :: rest.2)

/-- `validateEnv` (env module): throw when any required key is missing,
otherwise return the validated config object (an association list over
exactly the required keys). -/
def validateEnv (procEnv : String → Option String) : Except JsError (List (String × String)) :=
  let r := collectEnvs procEnv requiredEnvs
  if r.1.isEmpty then .ok r.2
  else .error (mkError ("❌ Variáveis de ambiente faltando: " ++ String.intercalate ", " r.1 ++
    "\nVerifique se o arquivo .env.local está configurado corretamente."))

/-- JS property access `env.KEY` on the validated config object:
`undefined` when the key is not a property. -/
def envGet (config : List (String × String)) (key : String) : Option String :=
  (config.find? (fun kv => kv.1 == key)).map Prod.snd

/-- The constructed Gemini client (`new GoogleGenAI({apiKey})`). -/
structure GoogleGenAI where
  apiKey : String
deriving Repr, DecidableEq

/-- The model-name constants exported by the Gemini client module. -/
def MODELS_FLASH_2_0 : String := "gemini-2.0-flash-exp"

/-- `MODELS.PRO_1_5` of the Gemini client module. -/
def MODELS_PRO_1_5 : String := "gemini-1.5-pro"

/-- `MODELS.FLASH_1_5`, the model `analyzeCRO` requests. -/
def MODELS_FLASH_1_5 : String := "gemini-1.5-flash"

/-- Module initialisation of the Gemini client (part_000 lines 10-15):
guard on `env.GOOGLE_API_KEY` and construct the client. -/
def initGeminiClient (config : List (String × String)) : Except JsError GoogleGenAI :=
  if jsFalsyOptStr (envGet config "GOOGLE_API_KEY") then
    .error (mkError "GOOGLE_API_KEY não está configurada nas variáveis de ambiente.")
  else
    .ok { apiKey := (envGet config "GOOGLE_API_KEY").getD "" }

/-- Every entry the validator collects has its key among the required
keys it scanned. -/
theorem collectEnvs_keys_mem (procEnv : String → Option String) :
    ∀ (ks : List String) (kv : String × String), kv ∈ (collectEnvs procEnv ks).2 → kv.1 ∈ ks := by
  intro ks
  induction ks with
  | nil => intro kv h; simp [collectEnvs] at h
  | cons k ks ih =>
      intro kv h
      unfold collectEnvs at h
      cases hv : procEnv k with
      | none =>
          rw [hv] at h
          dsimp only at h
          exact List.mem_cons_of_mem k (ih kv h)
      | some v =>
          rw [hv] at h
          dsimp only at h
          by_cases hv0 : v = ""
          · rw [if_pos hv0] at h
            dsimp only at h
            exact List.mem_cons_of_mem k (ih kv h)
          · rw [if_neg hv0] at h
            dsimp only at h
            rcases List.mem_cons.mp h with h | h
            · rw [h]
              exact List.mem_cons_self k ks
            · exact List.mem_cons_of_mem k (ih kv h)

/-- C10: for every process environment accepted by the environment
validator, the validated config object has no GOOGLE_API_KEY property,
so the Gemini client module's guard throws — the AI client
construction never succeeds. -/
theorem initGeminiClient_always_fails (procEnv : String → Option String)
    (config : List (String × String)) (h : validateEnv procEnv = .ok config) :
    initGeminiClient config =
      .error (mkError "GOOGLE_API_KEY não está configurada nas variáveis de ambiente.") := by
  have hconfig : config = (collectEnvs procEnv requiredEnvs).2 := by
    unfold validateEnv at h
    dsimp only at h
    split at h
    · injection h with h
      exact h.symm
    · exact absurd h (by simp)
  have hnone : envGet config "GOOGLE_API_KEY" = none := by
    unfold envGet
    rw [List.find?_eq_none.mpr, Option.map_none']
    intro kv hkv
    have hmem : kv.1 ∈ requiredEnvs := by
      rw [hconfig] at hkv
      exact collectEnvs_keys_mem procEnv requiredEnvs kv hkv
    intro heq
    rw [eq_of_beq heq] at hmem
    revert hmem
    decide
  unfold initGeminiClient
  rw [hnone]
  rfl

/-- A process environment defining exactly the three required keys. -/
def procEnvAllSet : String → Option String := fun k =>
  if k == "GEMINI_API_KEY" || k == "BUILTWITH_API_KEY" || k == "PAGESPEED_API_KEY"
  then some "chave-valida" else none

/-- Witness for C10: the validator accepts `procEnvAllSet`, yet the
Gemini client module guard still throws on the resulting config. -/
theorem initGeminiClient_always_fails_witness :
    initGeminiClient [("GEMINI_API_KEY", "chave-valida"), ("BUILTWITH_API_KEY", "chave-valida"),
        ("PAGESPEED_API_KEY", "chave-valida")] =
      .error (mkError "GOOGLE_API_KEY não está configurada nas variáveis de ambiente.") :=
  initGeminiClient_always_fails procEnvAllSet _ rfl

end Diagnostico
